import Mathlib

/-!
Verification of the sljit LIR header contract
(src/waterbox/ares64/ares/thirdparty/sljit/sljit_src/sljitLir.h).

The numeric constants (error codes, register encodings, argument-type
encodings, opcode bases and opcodes, condition codes, modifier bits) are
transcribed directly from the header.  Behaviour that the repository ships
only as documentation in the header (the implementation files sljitLir.c,
sljitUtils.c and the per-architecture backends are not part of the source
slice) is modelled from that documentation; such definitions carry a
doc comment saying so.
-/

namespace SljitLir

/-! Error codes, sljitLir.h lines 97-113. -/

def SLJIT_SUCCESS : Int := 0

def SLJIT_ERR_COMPILED : Int := 1

def SLJIT_ERR_ALLOC_FAILED : Int := 2

def SLJIT_ERR_EX_ALLOC_FAILED : Int := 3

def SLJIT_ERR_UNSUPPORTED : Int := 4

def SLJIT_ERR_BAD_ARGUMENT : Int := 5

def SLJIT_ERR_DYN_CODE_MOD : Int := 6

/-! Register encodings, sljitLir.h lines 166-213.  SLJIT_NUMBER_OF_REGISTERS
and SLJIT_NUMBER_OF_SAVED_REGISTERS come from the (absent) configuration
header, so they are parameters here. -/

def SLJIT_R (i : Nat) : Nat := 1 + i

def SLJIT_S (numberOfRegisters : Nat) (i : Nat) : Nat := numberOfRegisters - i

def SLJIT_SP (numberOfRegisters : Nat) : Nat := numberOfRegisters + 1

/-! Argument type encodings, sljitLir.h lines 312-335. -/

def SLJIT_ARG_TYPE_SCRATCH_REG : Nat := 0x8

def SLJIT_ARG_TYPE_VOID : Nat := 0

def SLJIT_ARG_TYPE_W : Nat := 1

def SLJIT_ARG_TYPE_W_R : Nat := SLJIT_ARG_TYPE_W ||| SLJIT_ARG_TYPE_SCRATCH_REG

def SLJIT_ARG_TYPE_32 : Nat := 2

def SLJIT_ARG_TYPE_32_R : Nat := SLJIT_ARG_TYPE_32 ||| SLJIT_ARG_TYPE_SCRATCH_REG

def SLJIT_ARG_TYPE_P : Nat := 3

def SLJIT_ARG_TYPE_P_R : Nat := SLJIT_ARG_TYPE_P ||| SLJIT_ARG_TYPE_SCRATCH_REG

def SLJIT_ARG_TYPE_F64 : Nat := 4

def SLJIT_ARG_TYPE_F32 : Nat := 5

/-! Operand selector and modifier bits, sljitLir.h lines 830-916. -/

def SLJIT_MEM : Nat := 0x80

def SLJIT_IMM : Nat := 0x40

def SLJIT_32 : Nat := 0x100

def SLJIT_SET_Z : Nat := 0x0200

def SLJIT_SET (condition : Nat) : Nat := condition <<< 10

/-! Opcodes, sljitLir.h lines 923-1197.  Each is transcribed as
BASE + offset exactly as in the header. -/

def SLJIT_OP0_BASE : Nat := 0

def SLJIT_BREAKPOINT : Nat := SLJIT_OP0_BASE + 0

def SLJIT_NOP : Nat := SLJIT_OP0_BASE + 1

def SLJIT_LMUL_UW : Nat := SLJIT_OP0_BASE + 2

def SLJIT_LMUL_SW : Nat := SLJIT_OP0_BASE + 3

def SLJIT_DIVMOD_UW : Nat := SLJIT_OP0_BASE + 4

def SLJIT_DIVMOD_SW : Nat := SLJIT_OP0_BASE + 5

def SLJIT_DIV_UW : Nat := SLJIT_OP0_BASE + 6

def SLJIT_DIV_SW : Nat := SLJIT_OP0_BASE + 7

def SLJIT_ENDBR : Nat := SLJIT_OP0_BASE + 8

def SLJIT_SKIP_FRAMES_BEFORE_RETURN : Nat := SLJIT_OP0_BASE + 9

def SLJIT_OP1_BASE : Nat := 32

def SLJIT_MOV : Nat := SLJIT_OP1_BASE + 0

def SLJIT_MOV_U8 : Nat := SLJIT_OP1_BASE + 1

def SLJIT_MOV_S8 : Nat := SLJIT_OP1_BASE + 2

def SLJIT_MOV_U16 : Nat := SLJIT_OP1_BASE + 3

def SLJIT_MOV_S16 : Nat := SLJIT_OP1_BASE + 4

def SLJIT_MOV_U32 : Nat := SLJIT_OP1_BASE + 5

def SLJIT_MOV_S32 : Nat := SLJIT_OP1_BASE + 6

def SLJIT_MOV32 : Nat := SLJIT_OP1_BASE + 7

def SLJIT_MOV_P : Nat := SLJIT_OP1_BASE + 8

def SLJIT_NOT : Nat := SLJIT_OP1_BASE + 9

def SLJIT_CLZ : Nat := SLJIT_OP1_BASE + 10

def SLJIT_OP2_BASE : Nat := 96

def SLJIT_ADD : Nat := SLJIT_OP2_BASE + 0

def SLJIT_ADDC : Nat := SLJIT_OP2_BASE + 1

def SLJIT_SUB : Nat := SLJIT_OP2_BASE + 2

def SLJIT_SUBC : Nat := SLJIT_OP2_BASE + 3

def SLJIT_MUL : Nat := SLJIT_OP2_BASE + 4

def SLJIT_AND : Nat := SLJIT_OP2_BASE + 5

def SLJIT_OR : Nat := SLJIT_OP2_BASE + 6

def SLJIT_XOR : Nat := SLJIT_OP2_BASE + 7

def SLJIT_SHL : Nat := SLJIT_OP2_BASE + 8

def SLJIT_LSHR : Nat := SLJIT_OP2_BASE + 9

def SLJIT_ASHR : Nat := SLJIT_OP2_BASE + 10

def SLJIT_OP_SRC_BASE : Nat := 128

def SLJIT_FAST_RETURN : Nat := SLJIT_OP_SRC_BASE + 0

def SLJIT_SKIP_FRAMES_BEFORE_FAST_RETURN : Nat := SLJIT_OP_SRC_BASE + 1

def SLJIT_PREFETCH_L1 : Nat := SLJIT_OP_SRC_BASE + 2

def SLJIT_PREFETCH_L2 : Nat := SLJIT_OP_SRC_BASE + 3

def SLJIT_PREFETCH_L3 : Nat := SLJIT_OP_SRC_BASE + 4

def SLJIT_PREFETCH_ONCE : Nat := SLJIT_OP_SRC_BASE + 5

def SLJIT_FOP1_BASE : Nat := 160

def SLJIT_MOV_F64 : Nat := SLJIT_FOP1_BASE + 0

def SLJIT_CONV_F64_FROM_F32 : Nat := SLJIT_FOP1_BASE + 1

def SLJIT_CONV_SW_FROM_F64 : Nat := SLJIT_FOP1_BASE + 2

def SLJIT_CONV_S32_FROM_F64 : Nat := SLJIT_FOP1_BASE + 3

def SLJIT_CONV_F64_FROM_SW : Nat := SLJIT_FOP1_BASE + 4

def SLJIT_CONV_F64_FROM_S32 : Nat := SLJIT_FOP1_BASE + 5

def SLJIT_CMP_F64 : Nat := SLJIT_FOP1_BASE + 6

def SLJIT_NEG_F64 : Nat := SLJIT_FOP1_BASE + 7

def SLJIT_ABS_F64 : Nat := SLJIT_FOP1_BASE + 8

def SLJIT_FOP2_BASE : Nat := 192

def SLJIT_ADD_F64 : Nat := SLJIT_FOP2_BASE + 0

def SLJIT_SUB_F64 : Nat := SLJIT_FOP2_BASE + 1

def SLJIT_MUL_F64 : Nat := SLJIT_FOP2_BASE + 2

def SLJIT_DIV_F64 : Nat := SLJIT_FOP2_BASE + 3

/-! Condition codes, sljitLir.h lines 1203-1300. -/

def SLJIT_EQUAL : Nat := 0

def SLJIT_NOT_EQUAL : Nat := 1

def SLJIT_LESS : Nat := 2

def SLJIT_GREATER_EQUAL : Nat := 3

def SLJIT_GREATER : Nat := 4

def SLJIT_LESS_EQUAL : Nat := 5

def SLJIT_SIG_LESS : Nat := 6

def SLJIT_SIG_GREATER_EQUAL : Nat := 7

def SLJIT_SIG_GREATER : Nat := 8

def SLJIT_SIG_LESS_EQUAL : Nat := 9

def SLJIT_OVERFLOW : Nat := 10

def SLJIT_NOT_OVERFLOW : Nat := 11

def SLJIT_CARRY : Nat := 12

def SLJIT_NOT_CARRY : Nat := 13

def SLJIT_F_EQUAL : Nat := 14

def SLJIT_F_NOT_EQUAL : Nat := 15

def SLJIT_F_LESS : Nat := 16

def SLJIT_F_GREATER_EQUAL : Nat := 17

def SLJIT_F_GREATER : Nat := 18

def SLJIT_F_LESS_EQUAL : Nat := 19

def SLJIT_UNORDERED : Nat := 20

def SLJIT_ORDERED : Nat := 21

def SLJIT_ORDERED_EQUAL : Nat := 22

def SLJIT_UNORDERED_OR_NOT_EQUAL : Nat := 23

def SLJIT_ORDERED_LESS : Nat := 24

def SLJIT_UNORDERED_OR_GREATER_EQUAL : Nat := 25

def SLJIT_ORDERED_GREATER : Nat := 26

def SLJIT_UNORDERED_OR_LESS_EQUAL : Nat := 27

def SLJIT_UNORDERED_OR_EQUAL : Nat := 28

def SLJIT_ORDERED_NOT_EQUAL : Nat := 29

def SLJIT_UNORDERED_OR_LESS : Nat := 30

def SLJIT_ORDERED_GREATER_EQUAL : Nat := 31

def SLJIT_UNORDERED_OR_GREATER : Nat := 32

def SLJIT_ORDERED_LESS_EQUAL : Nat := 33

def SLJIT_JUMP : Nat := 34

def SLJIT_FAST_CALL : Nat := 35

def SLJIT_CALL : Nat := 36

def SLJIT_CALL_CDECL : Nat := 37

def SLJIT_REWRITABLE_JUMP : Nat := 0x1000

def SLJIT_CALL_RETURN : Nat := 0x2000

/-! The local-size bound of sljit_emit_enter, sljitLir.h line 718. -/

def SLJIT_MAX_LOCAL_SIZE : Int := 65536

/-! Condition negation.  sljitLir.h line 1203 states the invariant
(invert a conditional type by xor with 0x1); the pairing below lists each
condition code next to the code of its semantic negation, read off the
names at lines 1206-1290 (EQUAL and NOT_EQUAL, LESS and GREATER_EQUAL,
UNORDERED and ORDERED, ORDERED_LESS and UNORDERED_OR_GREATER_EQUAL, ...). -/

def condNegationPairs : List (Nat × Nat) :=
  [(SLJIT_EQUAL, SLJIT_NOT_EQUAL),
   (SLJIT_LESS, SLJIT_GREATER_EQUAL),
   (SLJIT_GREATER, SLJIT_LESS_EQUAL),
   (SLJIT_SIG_LESS, SLJIT_SIG_GREATER_EQUAL),
   (SLJIT_SIG_GREATER, SLJIT_SIG_LESS_EQUAL),
   (SLJIT_OVERFLOW, SLJIT_NOT_OVERFLOW),
   (SLJIT_CARRY, SLJIT_NOT_CARRY),
   (SLJIT_F_EQUAL, SLJIT_F_NOT_EQUAL),
   (SLJIT_F_LESS, SLJIT_F_GREATER_EQUAL),
   (SLJIT_F_GREATER, SLJIT_F_LESS_EQUAL),
   (SLJIT_UNORDERED, SLJIT_ORDERED),
   (SLJIT_ORDERED_EQUAL, SLJIT_UNORDERED_OR_NOT_EQUAL),
   (SLJIT_ORDERED_LESS, SLJIT_UNORDERED_OR_GREATER_EQUAL),
   (SLJIT_ORDERED_GREATER, SLJIT_UNORDERED_OR_LESS_EQUAL),
   (SLJIT_UNORDERED_OR_EQUAL, SLJIT_ORDERED_NOT_EQUAL),
   (SLJIT_UNORDERED_OR_LESS, SLJIT_ORDERED_GREATER_EQUAL),
   (SLJIT_UNORDERED_OR_GREATER, SLJIT_ORDERED_LESS_EQUAL)]

/-- Twos-complement reading of a machine word, used for the SIG (signed)
comparison conditions. -/
def toSigned (x : Nat) : Int :=
  if x < 2 ^ 63 then (x : Int) else (x : Int) - 2 ^ 64

/-- Modelled from the spec: whether a conditional jump with the given
integer condition code (SLJIT_EQUAL .. SLJIT_SIG_LESS_EQUAL) is taken on
the flag state produced by comparing the machine words a and b, per the
condition meanings documented in sljitLir.h (LESS and GREATER are the
unsigned orders, SIG_LESS and SIG_GREATER the signed ones); the jump
execution itself lives in the per-architecture backends, which are not in
the source slice. -/
def intCondTaken (c : Nat) (a b : Nat) : Bool :=
  if c = SLJIT_EQUAL then decide (a = b)
  else if c = SLJIT_NOT_EQUAL then decide (¬ a = b)
  else if c = SLJIT_LESS then decide (a < b)
  else if c = SLJIT_GREATER_EQUAL then decide (¬ a < b)
  else if c = SLJIT_GREATER then decide (b < a)
  else if c = SLJIT_LESS_EQUAL then decide (¬ b < a)
  else if c = SLJIT_SIG_LESS then decide (toSigned a < toSigned b)
  else if c = SLJIT_SIG_GREATER_EQUAL then decide (¬ toSigned a < toSigned b)
  else if c = SLJIT_SIG_GREATER then decide (toSigned b < toSigned a)
  else if c = SLJIT_SIG_LESS_EQUAL then decide (¬ toSigned b < toSigned a)
  else false

/-! Opcode families, collected from the opcode definitions above. -/

def op0Opcodes : List Nat :=
  [SLJIT_BREAKPOINT, SLJIT_NOP, SLJIT_LMUL_UW, SLJIT_LMUL_SW,
   SLJIT_DIVMOD_UW, SLJIT_DIVMOD_SW, SLJIT_DIV_UW, SLJIT_DIV_SW,
   SLJIT_ENDBR, SLJIT_SKIP_FRAMES_BEFORE_RETURN]

def op1Opcodes : List Nat :=
  [SLJIT_MOV, SLJIT_MOV_U8, SLJIT_MOV_S8, SLJIT_MOV_U16, SLJIT_MOV_S16,
   SLJIT_MOV_U32, SLJIT_MOV_S32, SLJIT_MOV32, SLJIT_MOV_P,
   SLJIT_NOT, SLJIT_CLZ]

def op2Opcodes : List Nat :=
  [SLJIT_ADD, SLJIT_ADDC, SLJIT_SUB, SLJIT_SUBC, SLJIT_MUL,
   SLJIT_AND, SLJIT_OR, SLJIT_XOR, SLJIT_SHL, SLJIT_LSHR, SLJIT_ASHR]

def opSrcOpcodes : List Nat :=
  [SLJIT_FAST_RETURN, SLJIT_SKIP_FRAMES_BEFORE_FAST_RETURN,
   SLJIT_PREFETCH_L1, SLJIT_PREFETCH_L2, SLJIT_PREFETCH_L3,
   SLJIT_PREFETCH_ONCE]

def fopOpcodes : List Nat :=
  [SLJIT_MOV_F64, SLJIT_CONV_F64_FROM_F32, SLJIT_CONV_SW_FROM_F64,
   SLJIT_CONV_S32_FROM_F64, SLJIT_CONV_F64_FROM_SW, SLJIT_CONV_F64_FROM_S32,
   SLJIT_CMP_F64, SLJIT_NEG_F64, SLJIT_ABS_F64,
   SLJIT_ADD_F64, SLJIT_SUB_F64, SLJIT_MUL_F64, SLJIT_DIV_F64]

/-! Status-flag abstraction, sljitLir.h lines 865-916.  The two logical
flags are the zero flag and the variable flag. -/

structure FlagState where
  zf : Bool
  variableFlag : Bool
deriving DecidableEq

/-- Base opcode of an emitted operation word: the modifier bits SLJIT_32
(0x100), SLJIT_SET_Z (0x200) and SLJIT_SET(condition) (condition shifted
left by 10) are stripped; opcode indices themselves stay below 0x100. -/
def baseOpcodeOf (op : Nat) : Nat := op &&& 0xff

/-- Whether the operation word requests the zero flag (SLJIT_SET_Z). -/
def hasSetZ (op : Nat) : Bool := decide (op &&& SLJIT_SET_Z ≠ 0)

/-- The condition of an SLJIT_SET(condition) request carried by the
operation word (0 when none, since no condition code is 0-shifted in). -/
def setCondOf (op : Nat) : Nat := op >>> 10

/-- Opcodes whose header documentation reads Flags: - (does not modify
flags): BREAKPOINT, NOP, ENDBR, the whole MOV family of op1, FAST_RETURN,
the prefetch family, and MOV_F64 (with MOV_F32 sharing its base).  Every
other opcode is documented either with a set of flags it may set or as
may destroy flags. -/
def preservesFlags (base : Nat) : Bool :=
  base == SLJIT_BREAKPOINT || base == SLJIT_NOP || base == SLJIT_ENDBR ||
  (decide (SLJIT_MOV ≤ base) && decide (base ≤ SLJIT_MOV_P)) ||
  base == SLJIT_FAST_RETURN ||
  (decide (SLJIT_PREFETCH_L1 ≤ base) && decide (base ≤ SLJIT_PREFETCH_ONCE)) ||
  base == SLJIT_MOV_F64

/-- Modelled from the documented flag contract of sljitLir.h (lines
865-916 and the per-opcode Flags lines): an op whose base opcode is
documented as not modifying flags leaves the flag state unchanged; any
other op may leave either flag with any value (flags it was not asked to
set are undefined, and ops marked may-destroy may clobber them), so every
successor state is allowed.  Returns whether the transition from s to t
is a possible behaviour of emitted code for the operation word op. -/
def flagStepAllowed (op : Nat) (s t : FlagState) : Bool :=
  if preservesFlags (baseOpcodeOf op) then t == s else true

/-! Compiler session, sljitLir.h lines 408-528.  Only the fields that the
portable contract talks about are modelled: the error latch, the code
buffer (the chain of memory fragments flattened to the byte sequence it
holds), and the context recorded by sljit_emit_enter. -/

structure SljitCompiler where
  error : Int
  buf : List Nat
  scratches : Int
  saveds : Int
  fscratches : Int
  fsaveds : Int
  local_size : Int
deriving DecidableEq

/-- sljit_get_compiler_error, sljitLir.h line 553. -/
def sljit_get_compiler_error (compiler : SljitCompiler) : Int := compiler.error

/-- Modelled from the spec: the body shared by every emit function of
sljitLir.c (absent from the source slice).  Per sljitLir.h lines 548-552,
when an error occurred every later sljit call on the same compiler
returns early with the same error code; otherwise the operation appends
its encoding to the code buffer, unless allocation fails, which latches
SLJIT_ERR_ALLOC_FAILED.  allocOk stands for the success of the memory
allocator; enc for the bytes the op would append. -/
def emitOp (compiler : SljitCompiler) (enc : List Nat) (allocOk : Bool) :
    Int × SljitCompiler :=
  if compiler.error ≠ 0 then (compiler.error, compiler)
  else if allocOk then
    (SLJIT_SUCCESS, { compiler with buf := compiler.buf ++ enc })
  else
    (SLJIT_ERR_ALLOC_FAILED, { compiler with error := SLJIT_ERR_ALLOC_FAILED })

/-- Modelled from the spec: the argument checking of sljit_emit_enter
(implementation in sljitLir.c, absent from the source slice).  Per
sljitLir.h line 717 the local_size must be at least 0 and at most
SLJIT_MAX_LOCAL_SIZE, and per the error-code documentation an invalid
argument yields SLJIT_ERR_BAD_ARGUMENT when argument checking is
enabled; a violating call fails before emitting any prologue byte.
prologue stands for the prologue encoding the backend would emit. -/
def sljit_emit_enter (compiler : SljitCompiler)
    (arg_types scratches saveds fscratches fsaveds local_size : Int)
    (prologue : List Nat) : Int × SljitCompiler :=
  if compiler.error ≠ 0 then (compiler.error, compiler)
  else if local_size < 0 ∨ SLJIT_MAX_LOCAL_SIZE < local_size then
    (SLJIT_ERR_BAD_ARGUMENT, { compiler with error := SLJIT_ERR_BAD_ARGUMENT })
  else
    (SLJIT_SUCCESS,
      { compiler with
          buf := compiler.buf ++ prologue
          scratches := scratches, saveds := saveds
          fscratches := fscratches, fsaveds := fsaveds
          local_size := local_size })

/-- Modelled from the spec: sljit_alloc_memory (implementation in
sljitLir.c, absent from the source slice).  Per sljitLir.h lines 563-574
the size must be positive and at most 64 bytes on 32 bit and at most 128
bytes on 64 bit architectures; outside that range the function returns
NULL without touching the error code of the compiler.  In range, the
underlying allocation may fail, which latches SLJIT_ERR_ALLOC_FAILED;
is64 selects the architecture word size and allocOk the allocator
outcome.  The returned Option is the returned pointer (none for NULL). -/
def sljit_alloc_memory (is64 : Bool) (compiler : SljitCompiler)
    (size : Int) (allocOk : Bool) : Option Unit × SljitCompiler :=
  if compiler.error ≠ 0 then (none, compiler)
  else if size ≤ 0 ∨ (if is64 then (128 : Int) else 64) < size then
    (none, compiler)
  else if allocOk then (some (), compiler)
  else (none, { compiler with error := SLJIT_ERR_ALLOC_FAILED })

/-! Runtime patching, sljitLir.h lines 592-603 and 1483-1486.  The
writable and executable mappings are two views of one region separated by
executable_offset. -/

/-- Memory of the generated code, indexed by writable addresses; the cell
at writable address w holds, for a rewritable jump, the PC-relative
displacement its encoding stores, and for a rewritable const, the
constant value. -/
structure ExecMemory where
  mem : Int → Int

/-- Modelled from the spec: sljit_set_jump_addr (per-architecture
implementation absent from the source slice).  addr is the executable
address of the rewritable jump; the bytes to modify live in the writable
mapping at addr minus executable_offset (the offset is subtracted to
locate them), and the stored PC-relative operand is computed against the
executable address (the offset having been added into addr). -/
def sljit_set_jump_addr (m : ExecMemory)
    (addr new_target executable_offset : Int) : ExecMemory :=
  { mem := fun w =>
      if w = addr - executable_offset then new_target - addr else m.mem w }

/-- Modelled from the spec: sljit_set_const (per-architecture
implementation absent from the source slice); the offset bookkeeping is
identical to sljit_set_jump_addr. -/
def sljit_set_const (m : ExecMemory)
    (addr new_constant executable_offset : Int) : ExecMemory :=
  { mem := fun w =>
      if w = addr - executable_offset then new_constant else m.mem w }

/-- Modelled from the spec: executing the rewritable jump located at
executable address addr transfers control to addr plus the PC-relative
displacement its encoding stores (read through the writable view). -/
def execJump (m : ExecMemory) (addr executable_offset : Int) : Int :=
  addr + m.mem (addr - executable_offset)

/-- Modelled from the spec: the value a rewritable const at executable
address addr materialises when the patched code runs. -/
def readConst (m : ExecMemory) (addr executable_offset : Int) : Int :=
  m.mem (addr - executable_offset)

/-! Argument placement of sljit_emit_enter, sljitLir.h lines 256-315. -/

/-- One slot of the packed argument-type word: the six value kinds of
sljitLir.h lines 317-331, with the SLJIT_ARG_TYPE_SCRATCH_REG flag folded
into the _R variants (T32 stands for the type named 32, which cannot
begin an identifier). -/
inductive ArgKind
  | W | W_R | T32 | T32_R | P | P_R | F64 | F32
deriving DecidableEq

/-- The 4-bit encoding of an argument kind, sljitLir.h lines 315-331. -/
def argKindCode : ArgKind → Nat
  | ArgKind.W => SLJIT_ARG_TYPE_W
  | ArgKind.W_R => SLJIT_ARG_TYPE_W_R
  | ArgKind.T32 => SLJIT_ARG_TYPE_32
  | ArgKind.T32_R => SLJIT_ARG_TYPE_32_R
  | ArgKind.P => SLJIT_ARG_TYPE_P
  | ArgKind.P_R => SLJIT_ARG_TYPE_P_R
  | ArgKind.F64 => SLJIT_ARG_TYPE_F64
  | ArgKind.F32 => SLJIT_ARG_TYPE_F32

/-- Floating point argument kinds. -/
def isFloatArg (a : ArgKind) : Bool :=
  argKindCode a == SLJIT_ARG_TYPE_F64 || argKindCode a == SLJIT_ARG_TYPE_F32

/-- Integer argument kinds carrying the SLJIT_ARG_TYPE_SCRATCH_REG flag. -/
def isScratchArg (a : ArgKind) : Bool :=
  decide (argKindCode a &&& SLJIT_ARG_TYPE_SCRATCH_REG ≠ 0)

/-- A register an incoming argument is moved into by the prologue. -/
inductive ArgReg
  | R (i : Nat)
  | S (i : Nat)
  | FR (i : Nat)
deriving DecidableEq

/-- Modelled from the spec: the placement rule of sljit_emit_enter
documented at sljitLir.h lines 264-270 and its examples at lines 295-309
(the emitting code lives in the backends, absent from the source slice).
The first integer argument without the _R postfix is stored in SLJIT_S0,
the next one in SLJIT_S1, and so on; an integer argument with the _R
postfix is placed into the scratch register whose index is the count of
the previous integer arguments, starting from SLJIT_R0; floating point
arguments are always placed into SLJIT_FR0, SLJIT_FR1, and so on.
intCount, savedCount and floatCount are the running counts of integer
arguments, of integer arguments without _R, and of float arguments. -/
def enterPlacementFrom (intCount savedCount floatCount : Nat) :
    List ArgKind → List ArgReg
  | [] => []
  | a :: rest =>
    if isFloatArg a then
      ArgReg.FR floatCount ::
        enterPlacementFrom intCount savedCount (floatCount + 1) rest
    else if isScratchArg a then
      ArgReg.R intCount ::
        enterPlacementFrom (intCount + 1) savedCount floatCount rest
    else
      ArgReg.S savedCount ::
        enterPlacementFrom (intCount + 1) (savedCount + 1) floatCount rest

/-- Register placement of each argument of an sljit_emit_enter argument
list, in order. -/
def enterPlacement (args : List ArgKind) : List ArgReg :=
  enterPlacementFrom 0 0 0 args

/-- Number of integer arguments among the first i arguments. -/
def intArgsBefore (args : List ArgKind) (i : Nat) : Nat :=
  ((args.take i).filter (fun a => ! isFloatArg a)).length

/-- Number of integer arguments without the _R postfix among the first i
arguments. -/
def savedArgsBefore (args : List ArgKind) (i : Nat) : Nat :=
  ((args.take i).filter (fun a => ! isFloatArg a && ! isScratchArg a)).length

/-- Number of floating point arguments among the first i arguments. -/
def floatArgsBefore (args : List ArgKind) (i : Nat) : Nat :=
  ((args.take i).filter (fun a => isFloatArg a)).length

/-! Utility stack, sljitLir.h lines 1503-1550. -/

/-- The sljit_stack structure (sljitLir.h lines 1527-1538), with its four
address fields (endAddr models the field named end, a Lean keyword) and
the contents of the backing memory region. -/
structure SljitStack where
  top : Int
  endAddr : Int
  start : Int
  min_start : Int
  contents : Int → Int

/-- Modelled from the spec: sljit_stack_resize (implementation in
sljitUtils.c, absent from the source slice).  Per sljitLir.h lines
1545-1550 it returns new_start if successful and NULL otherwise, always
fails if new_start is less than min_start or greater or equal than end,
and leaves the fields of the stack unchanged when it returns NULL; per
lines 1514-1519 a successful resize never moves the content of the
memory area.  The Option is the returned pointer (none for NULL). -/
def sljit_stack_resize (stack : SljitStack) (new_start : Int) :
    Option Int × SljitStack :=
  if new_start < stack.min_start ∨ stack.endAddr ≤ new_start then
    (none, stack)
  else
    (some new_start, { stack with start := new_start })

/-! Concrete instances used by the witnesses below. -/

/-- A fresh compiler session as sljit_create_compiler returns it: no
error, empty code buffer, no context yet. -/
def exampleFreshCompiler : SljitCompiler :=
  { error := 0, buf := [], scratches := 0, saveds := 0,
    fscratches := 0, fsaveds := 0, local_size := 0 }

/-- A session whose error latch holds SLJIT_ERR_ALLOC_FAILED. -/
def exampleErroredCompiler : SljitCompiler :=
  { error := 2, buf := [], scratches := 0, saveds := 0,
    fscratches := 0, fsaveds := 0, local_size := 0 }

/-- A utility stack spanning writable region [10, 100) with the usable
region currently starting at 50 (top initialized to the end field, per
sljitLir.h lines 1528-1529). -/
def exampleStack : SljitStack :=
  { top := 100, endAddr := 100, start := 50, min_start := 10,
    contents := fun _ => 0 }

/-! Theorems. -/

/-- C1: once the error field of a compiler session is non-zero, every
subsequent emit operation is a no-op: it returns that same error code,
leaves the error field (and the whole session, in particular the code
buffer) unchanged. -/
theorem error_latch_emit_noop (compiler : SljitCompiler) (enc : List Nat)
    (allocOk : Bool) (h : compiler.error ≠ 0) :
    emitOp compiler enc allocOk = (compiler.error, compiler) := by
  unfold emitOp
  rw [if_pos h]

/-- Witness for error_latch_emit_noop at a session whose latch holds
SLJIT_ERR_ALLOC_FAILED. -/
theorem error_latch_emit_noop_witness :
    emitOp exampleErroredCompiler [7] true = (2, exampleErroredCompiler) :=
  error_latch_emit_noop exampleErroredCompiler [7] true (by decide)

/-- C2: for every condition code of the LIR (integer, overflow and carry,
and both floating point tiers) the negated code equals the code xor 1;
and for every integer condition c, a jump with c and a jump with c xor 1
evaluated on the same compared pair are mutually exclusive and
exhaustive: exactly one of the two is taken. -/
theorem cond_inversion_xor_one :
    (∀ p ∈ condNegationPairs, p.2 = p.1 ^^^ 1 ∧ p.1 = p.2 ^^^ 1) ∧
    (∀ c a b, c ≤ SLJIT_SIG_LESS_EQUAL →
      intCondTaken (c ^^^ 1) a b = ! intCondTaken c a b) := by
  constructor
  · decide
  · intro c a b hc
    simp only [SLJIT_SIG_LESS_EQUAL] at hc
    interval_cases c <;>
      simp [intCondTaken, SLJIT_EQUAL, SLJIT_NOT_EQUAL, SLJIT_LESS,
        SLJIT_GREATER_EQUAL, SLJIT_GREATER, SLJIT_LESS_EQUAL, SLJIT_SIG_LESS,
        SLJIT_SIG_GREATER_EQUAL, SLJIT_SIG_GREATER, SLJIT_SIG_LESS_EQUAL,
        decide_not] <;>
      simp only [← decide_not, decide_eq_decide] <;> omega

/-- Witness for cond_inversion_xor_one: the LESS / GREATER_EQUAL pair,
and the compared words 3 and 5. -/
theorem cond_inversion_xor_one_witness :
    (SLJIT_GREATER_EQUAL = SLJIT_LESS ^^^ 1 ∧
      SLJIT_LESS = SLJIT_GREATER_EQUAL ^^^ 1) ∧
    intCondTaken (SLJIT_LESS ^^^ 1) 3 5 = ! intCondTaken SLJIT_LESS 3 5 :=
  ⟨cond_inversion_xor_one.1 (SLJIT_LESS, SLJIT_GREATER_EQUAL) (by decide),
   cond_inversion_xor_one.2 SLJIT_LESS 3 5 (by decide)⟩

/-- C3 as stated is false on the code: SLJIT_ADD carries neither
SLJIT_SET_Z nor any SLJIT_SET(condition) modifier, yet sljitLir.h lines
878-883 state that after a plain SLJIT_ADD both the zero and the
variable flag can have any value, so a transition changing the flag
state is among the allowed behaviours of that op. -/
theorem flag_minimality_counterexample :
    hasSetZ SLJIT_ADD = false ∧ setCondOf SLJIT_ADD = 0 ∧
    flagStepAllowed SLJIT_ADD (FlagState.mk false false)
      (FlagState.mk true false) = true ∧
    FlagState.mk true false ≠ FlagState.mk false false := by decide

/-- C3 amended: when the base opcode of the emitted operation is one the
header documents as not modifying flags (the MOV family, NOP,
BREAKPOINT, ENDBR, FAST_RETURN, the prefetches, MOV_F64), the flag state
of the session is unchanged by the op; for any other opcode, flags not
requested via SLJIT_SET_Z or SLJIT_SET(condition) are undefined rather
than preserved. -/
theorem flag_preserving_ops_unchanged (op : Nat) (s t : FlagState)
    (hp : preservesFlags (baseOpcodeOf op) = true)
    (hstep : flagStepAllowed op s t = true) : t = s := by
  unfold flagStepAllowed at hstep
  rw [if_pos hp] at hstep
  exact eq_of_beq hstep

/-- Witness for flag_preserving_ops_unchanged at SLJIT_MOV. -/
theorem flag_preserving_ops_unchanged_witness :
    preservesFlags (baseOpcodeOf SLJIT_MOV) = true ∧
    FlagState.mk true false = FlagState.mk true false :=
  ⟨by decide,
   flag_preserving_ops_unchanged SLJIT_MOV (FlagState.mk true false)
     (FlagState.mk true false) (by decide) (by decide)⟩

/-- C4: patching a rewritable jump at executable address addr to target a
with sljit_set_jump_addr and then executing the jump transfers control
to a; the executable offset is added when computing the PC-relative
operand (it is computed against the executable address) and subtracted
when locating the bytes to modify; and the analogous round trip holds
for sljit_set_const on rewritable consts. -/
theorem rewritable_patch_round_trip (m : ExecMemory)
    (addr a v executable_offset : Int) :
    execJump (sljit_set_jump_addr m addr a executable_offset) addr
      executable_offset = a ∧
    readConst (sljit_set_const m addr v executable_offset) addr
      executable_offset = v := by
  constructor
  · show addr + (if addr - executable_offset = addr - executable_offset
      then a - addr else m.mem (addr - executable_offset)) = a
    rw [if_pos rfl]
    omega
  · show (if addr - executable_offset = addr - executable_offset
      then v else m.mem (addr - executable_offset)) = v
    rw [if_pos rfl]

/-- Counting lemma: how taking one more argument changes the float
count. -/
theorem floatArgsBefore_cons (a : ArgKind) (rest : List ArgKind) (n : Nat) :
    floatArgsBefore (a :: rest) (n + 1) =
      (if isFloatArg a then 1 else 0) + floatArgsBefore rest n := by
  simp only [floatArgsBefore, List.take_succ_cons, List.filter_cons]
  by_cases hf : isFloatArg a <;> simp [hf] <;> omega

/-- Counting lemma: how taking one more argument changes the integer
count. -/
theorem intArgsBefore_cons (a : ArgKind) (rest : List ArgKind) (n : Nat) :
    intArgsBefore (a :: rest) (n + 1) =
      (if isFloatArg a then 0 else 1) + intArgsBefore rest n := by
  simp only [intArgsBefore, List.take_succ_cons, List.filter_cons]
  by_cases hf : isFloatArg a <;> simp [hf] <;> omega

/-- Counting lemma: how taking one more argument changes the count of
integer arguments without the scratch postfix. -/
theorem savedArgsBefore_cons (a : ArgKind) (rest : List ArgKind) (n : Nat) :
    savedArgsBefore (a :: rest) (n + 1) =
      (if ! isFloatArg a && ! isScratchArg a then 1 else 0) +
        savedArgsBefore rest n := by
  simp only [savedArgsBefore, List.take_succ_cons, List.filter_cons]
  by_cases hf : (! isFloatArg a && ! isScratchArg a) = true <;>
    simp [hf] <;> omega

/-- Placement of the i-th argument by enterPlacementFrom, for arbitrary
starting counts. -/
theorem enterPlacementFrom_get (args : List ArgKind) (ic sc fc i : Nat)
    (h : i < args.length) :
    (enterPlacementFrom ic sc fc args).get? i =
      some (if isFloatArg args[i] then
              ArgReg.FR (fc + floatArgsBefore args i)
            else if isScratchArg args[i] then
              ArgReg.R (ic + intArgsBefore args i)
            else ArgReg.S (sc + savedArgsBefore args i)) := by
  induction args generalizing ic sc fc i with
  | nil => simp at h
  | cons a rest ih =>
    cases i with
    | zero =>
      simp only [enterPlacementFrom, List.getElem_cons_zero]
      by_cases hf : isFloatArg a
      · simp [hf, floatArgsBefore]
      · by_cases hs : isScratchArg a
        · simp [hf, hs, intArgsBefore]
        · simp [hf, hs, savedArgsBefore]
    | succ n =>
      have hn : n < rest.length := by simpa using h
      simp only [enterPlacementFrom, List.getElem_cons_succ]
      rw [floatArgsBefore_cons, intArgsBefore_cons, savedArgsBefore_cons]
      by_cases hf : isFloatArg a
      · rw [if_pos hf, List.get?_cons_succ, ih ic sc (fc + 1) n hn]
        by_cases h1 : isFloatArg rest[n] <;>
          by_cases h2 : isScratchArg rest[n] <;>
          simp [h1, h2, hf] <;> omega
      · by_cases hs : isScratchArg a
        · rw [if_neg hf, if_pos hs, List.get?_cons_succ,
            ih (ic + 1) sc fc n hn]
          by_cases h1 : isFloatArg rest[n] <;>
            by_cases h2 : isScratchArg rest[n] <;>
            simp [h1, h2, hf, hs] <;> omega
        · rw [if_neg hf, if_neg hs, List.get?_cons_succ,
            ih (ic + 1) (sc + 1) fc n hn]
          by_cases h1 : isFloatArg rest[n] <;>
            by_cases h2 : isScratchArg rest[n] <;>
            simp [h1, h2, hf, hs] <;> omega

/-- C5 as stated is false on the code: in the argument list (W, W_R) the
single scratch-typed integer argument is the first such argument, which
the claim sends to R0; the rule documented at sljitLir.h lines 264-270
(with examples at lines 295-309) indexes scratch placement by the count
of all previous integer arguments and places it into R1. -/
theorem enter_scratch_index_counterexample :
    enterPlacement [ArgKind.W, ArgKind.W_R] = [ArgReg.S 0, ArgReg.R 1] ∧
    ArgReg.R 1 ≠ ArgReg.R 0 := by decide

/-- C5 amended: in the sljit_emit_enter placement, the k-th integer
argument without the scratch postfix is placed into S(k-1), counting
only such arguments; an integer argument with the scratch postfix is
placed into the scratch register R j where j is the number of integer
arguments of either kind preceding it; and the k-th floating point
argument always goes to FR(k-1). -/
theorem enter_arg_placement (args : List ArgKind) (i : Nat)
    (h : i < args.length) :
    (enterPlacement args).get? i =
      some (if isFloatArg args[i] then ArgReg.FR (floatArgsBefore args i)
            else if isScratchArg args[i] then ArgReg.R (intArgsBefore args i)
            else ArgReg.S (savedArgsBefore args i)) := by
  have hmain := enterPlacementFrom_get args 0 0 0 i h
  simpa [enterPlacement] using hmain

/-- Witness for enter_arg_placement: in (W, W_R) the scratch-typed second
argument is placed into R1. -/
theorem enter_arg_placement_witness :
    (enterPlacement [ArgKind.W, ArgKind.W_R]).get? 1 =
      some (ArgReg.R 1) := by
  have h := enter_arg_placement [ArgKind.W, ArgKind.W_R] 1 (by decide)
  rw [h]
  decide

/-- C6: sljit_emit_enter requires 0 ≤ local_size ≤ SLJIT_MAX_LOCAL_SIZE,
which equals 65536; with argument checking enabled, a call whose
local_size lies outside this range fails with SLJIT_ERR_BAD_ARGUMENT
instead of emitting a prologue: only the error field changes, and the
code buffer receives no bytes. -/
theorem enter_local_size_check (compiler : SljitCompiler)
    (arg_types scratches saveds fscratches fsaveds local_size : Int)
    (prologue : List Nat) (herr : compiler.error = 0)
    (hout : local_size < 0 ∨ SLJIT_MAX_LOCAL_SIZE < local_size) :
    SLJIT_MAX_LOCAL_SIZE = 65536 ∧
    sljit_emit_enter compiler arg_types scratches saveds fscratches fsaveds
        local_size prologue =
      (SLJIT_ERR_BAD_ARGUMENT,
        { compiler with error := SLJIT_ERR_BAD_ARGUMENT }) ∧
    (sljit_emit_enter compiler arg_types scratches saveds fscratches fsaveds
        local_size prologue).2.buf = compiler.buf := by
  refine ⟨rfl, ?_, ?_⟩ <;>
    · unfold sljit_emit_enter
      rw [if_neg (by simp [herr]), if_pos hout]

/-- Witness for enter_local_size_check at local_size = -1 on a fresh
session. -/
theorem enter_local_size_check_witness :
    SLJIT_MAX_LOCAL_SIZE = 65536 ∧
    sljit_emit_enter exampleFreshCompiler 0 0 0 0 0 (-1) [9] =
      (SLJIT_ERR_BAD_ARGUMENT,
        { exampleFreshCompiler with error := SLJIT_ERR_BAD_ARGUMENT }) ∧
    (sljit_emit_enter exampleFreshCompiler 0 0 0 0 0 (-1) [9]).2.buf =
      exampleFreshCompiler.buf :=
  enter_local_size_check exampleFreshCompiler 0 0 0 0 0 (-1) [9]
    (by decide) (Or.inl (by decide))

/-- C7: the base-opcode families occupy pairwise disjoint numeric ranges
(op0 within [0,31], op1 within [32,95], op2 within [96,127], opSRC
within [128,159], floating point within [160,255], all before or-ing
modifier bits), and no base opcode occurs in two families, so a base
opcode is classified by numeric range alone. -/
theorem opcode_families_disjoint_ranges :
    (op0Opcodes.all fun x => decide (x ≤ 31)) = true ∧
    (op1Opcodes.all fun x => decide (32 ≤ x ∧ x ≤ 95)) = true ∧
    (op2Opcodes.all fun x => decide (96 ≤ x ∧ x ≤ 127)) = true ∧
    (opSrcOpcodes.all fun x => decide (128 ≤ x ∧ x ≤ 159)) = true ∧
    (fopOpcodes.all fun x => decide (160 ≤ x ∧ x ≤ 255)) = true ∧
    (op0Opcodes ++ op1Opcodes ++ op2Opcodes ++ opSrcOpcodes ++
      fopOpcodes).Nodup := by
  decide

/-- C8: sljit_stack_resize fails exactly when new_start < min_start or
new_start ≥ end; on failure it returns NULL and leaves every field of
the stack and the memory contents unchanged; on success it returns
new_start and updates only the start field, moving nothing. -/
theorem stack_resize_contract (stack : SljitStack) (new_start : Int) :
    ((new_start < stack.min_start ∨ stack.endAddr ≤ new_start) →
      sljit_stack_resize stack new_start = (none, stack)) ∧
    (stack.min_start ≤ new_start → new_start < stack.endAddr →
      sljit_stack_resize stack new_start =
        (some new_start, { stack with start := new_start })) := by
  constructor
  · intro hfail
    unfold sljit_stack_resize
    rw [if_pos hfail]
  · intro h1 h2
    unfold sljit_stack_resize
    rw [if_neg (by omega)]

/-- Witness for stack_resize_contract on the concrete stack: resizing
below min_start fails without a change, resizing inside the reserved
region succeeds. -/
theorem stack_resize_contract_witness :
    sljit_stack_resize exampleStack 5 = (none, exampleStack) ∧
    sljit_stack_resize exampleStack 20 =
      (some 20, { exampleStack with start := 20 }) :=
  ⟨(stack_resize_contract exampleStack 5).1 (Or.inl (by decide)),
   (stack_resize_contract exampleStack 20).2 (by decide) (by decide)⟩

/-- C9: for every size outside the permitted range (size ≤ 0, or greater
than 64 bytes on 32 bit, or greater than 128 bytes on 64 bit
architectures) sljit_alloc_memory returns NULL while leaving the whole
session, in particular its error field, unchanged; it never latches the
out-of-memory code for a bad size. -/
theorem alloc_memory_out_of_range (is64 : Bool) (compiler : SljitCompiler)
    (size : Int) (allocOk : Bool)
    (hout : size ≤ 0 ∨ (if is64 then (128 : Int) else 64) < size) :
    sljit_alloc_memory is64 compiler size allocOk = (none, compiler) := by
  unfold sljit_alloc_memory
  by_cases herr : compiler.error ≠ 0
  · rw [if_pos herr]
  · rw [if_neg herr, if_pos hout]

/-- Witness for alloc_memory_out_of_range: 129 bytes on a 64 bit
architecture. -/
theorem alloc_memory_out_of_range_witness :
    sljit_alloc_memory true exampleFreshCompiler 129 true =
      (none, exampleFreshCompiler) :=
  alloc_memory_out_of_range true exampleFreshCompiler 129 true
    (Or.inr (by decide))

/-- C10: the scratch and saved register encodings overlap from opposite
ends of one index space: SLJIT_R j = 1 + j, SLJIT_S i equals
NUMBER_OF_REGISTERS - i and coincides with
SLJIT_R (NUMBER_OF_REGISTERS - 1 - i); every register encoding lies in
[1, NUMBER_OF_REGISTERS]; and SLJIT_SP = NUMBER_OF_REGISTERS + 1 is
distinct from every register encoding. -/
theorem register_encoding_overlap (nreg nsaved i j : Nat)
    (hsaved : nsaved ≤ nreg) (hi : i < nsaved) (hj : j < nreg) :
    SLJIT_R j = 1 + j ∧
    SLJIT_S nreg i = nreg - i ∧
    SLJIT_S nreg i = SLJIT_R (nreg - 1 - i) ∧
    (1 ≤ SLJIT_R j ∧ SLJIT_R j ≤ nreg) ∧
    (1 ≤ SLJIT_S nreg i ∧ SLJIT_S nreg i ≤ nreg) ∧
    SLJIT_SP nreg = nreg + 1 ∧
    SLJIT_SP nreg ≠ SLJIT_R j ∧ SLJIT_SP nreg ≠ SLJIT_S nreg i := by
  unfold SLJIT_R SLJIT_S SLJIT_SP
  omega

/-- Witness for register_encoding_overlap at the smallest register file
the header guarantees: 12 registers, 6 of them saved, i = 2, j = 3. -/
theorem register_encoding_overlap_witness :
    SLJIT_R 3 = 1 + 3 ∧
    SLJIT_S 12 2 = 12 - 2 ∧
    SLJIT_S 12 2 = SLJIT_R (12 - 1 - 2) ∧
    (1 ≤ SLJIT_R 3 ∧ SLJIT_R 3 ≤ 12) ∧
    (1 ≤ SLJIT_S 12 2 ∧ SLJIT_S 12 2 ≤ 12) ∧
    SLJIT_SP 12 = 12 + 1 ∧
    SLJIT_SP 12 ≠ SLJIT_R 3 ∧ SLJIT_SP 12 ≠ SLJIT_S 12 2 :=
  register_encoding_overlap 12 6 2 3 (by decide) (by decide) (by decide)

end SljitLir
